import Mathlib

/-!
Shallow embedding of the authentication core of secure-task-api
(internal/auth/jwt.go, internal/auth/password.go,
internal/middleware/middleware.go, internal/handlers/auth.go,
pkg/utils/response.go), together with theorems settling the frozen
claims about it.

Time is modelled as `Int` seconds (Go `time.Time` compared with
`Before`/`After`); HMAC-SHA256 is modelled as an ideal MAC (the tag is
the triple of key, algorithm and signed payload, so tags collide exactly
when key and message coincide); bcrypt is modelled from the documented
contract of golang.org/x/crypto/bcrypt (collision-free keyed digest,
72-byte limit on hashing, distinct error values for mismatch and for a
malformed stored hash).
-/

namespace SecureTaskApi

/-- JOSE algorithm of a token header. The Go code checks
`token.Method.(*jwt.SigningMethodHMAC)`, i.e. membership in the HMAC
family. -/
inductive Alg
  | hs256
  | hs384
  | hs512
  | rs256
  | algNone
  deriving DecidableEq, Repr

/-- Whether the algorithm is in the HMAC family (`*jwt.SigningMethodHMAC`). -/
def Alg.isHMAC : Alg → Bool
  | .hs256 => true
  | .hs384 => true
  | .hs512 => true
  | _ => false

/-- The JSON claim set of a token: the two custom claims of `auth.Claims`
(`user_id`, `email`) and the registered claims used by the code
(`iss`, `sub`, `exp`, `nbf`, `iat`). `none` means the key is absent from
the JSON object. -/
structure Payload where
  user_id : Option String := none
  email : Option String := none
  iss : Option String := none
  sub : Option String := none
  exp : Option Int := none
  nbf : Option Int := none
  iat : Option Int := none
  deriving DecidableEq, Repr

/-- An HMAC tag, modelled as an ideal MAC: the tag determines and is
determined by the key, the algorithm and the signed payload. -/
structure Mac where
  key : String
  alg : Alg
  signed : Payload
  deriving DecidableEq, Repr

/-- A compact JWS object: header algorithm, claim set, and signature. -/
structure SignedToken where
  alg : Alg
  payload : Payload
  sig : Mac
  deriving DecidableEq, Repr

/-- `jwt.NewWithClaims(method, claims)` followed by `SignedString(secret)`:
sign the payload with the given key and algorithm. -/
def signToken (secret : String) (a : Alg) (p : Payload) : SignedToken :=
  ⟨a, p, ⟨secret, a, p⟩⟩

/-- Error values produced by the JWT layer. -/
inductive JWTError
  | badAlg
  | badSignature
  | expired
  | notYetValid
  | parseError
  | invalidToken
  | refreshParseFailed (e : JWTError)
  | invalidIssuer
  | refreshExpired
  | missingSubject
  deriving DecidableEq, Repr

/-- The deployment issuer constant `"secure-task-api"`. -/
def issuerConst : String := "secure-task-api"

/-- Mirrors the fields of `auth.JWTManager`; durations in seconds. -/
structure JWTManager where
  secret : String
  accessTokenDuration : Int
  refreshTokenDuration : Int
  deriving DecidableEq, Repr

/-- Zero-leeway `exp` validation of golang-jwt/jwt/v5: valid when absent
(the claim is optional by default) or when `now < exp` (the library
checks the strict `cmp.Before(exp)`). -/
def expValid (now : Int) : Option Int → Bool
  | none => true
  | some e => now < e

/-- Zero-leeway `nbf` validation of golang-jwt/jwt/v5: valid when absent
or when `nbf ≤ now`. -/
def nbfValid (now : Int) : Option Int → Bool
  | none => true
  | some b => b ≤ now

/-- Models `jwt.ParseWithClaims` with the keyfunc used by both
validators, from golang-jwt/jwt/v5: the keyfunc rejects a non-HMAC
algorithm; the signature is verified by recomputing the MAC with the
configured secret; then the registered claims are validated with zero
leeway (`exp` and `nbf` as above; `iat` is not validated, its option
being off by default). Returns the claim set on success. -/
def parseHMAC (secret : String) (now : Int) (t : SignedToken) :
    Except JWTError Payload :=
  if t.alg.isHMAC = false then .error .badAlg
  else if t.sig ≠ Mac.mk secret t.alg t.payload then .error .badSignature
  else if expValid now t.payload.exp = false then .error .expired
  else if nbfValid now t.payload.nbf = false then .error .notYetValid
  else .ok t.payload

/-- The decoded `auth.Claims` struct: absent JSON keys decode to the
zero value `""` for the custom string fields. -/
structure Claims where
  UserID : String
  Email : String
  Issuer : Option String
  Subject : Option String
  ExpiresAt : Option Int
  deriving DecidableEq, Repr

/-- `JWTManager.GenerateAccessToken`: HS256 token with `user_id`,
`email`, `exp = now + accessTokenDuration`, `iat = nbf = now`,
`iss = "secure-task-api"`. -/
def JWTManager.GenerateAccessToken (j : JWTManager) (now : Int)
    (userID email : String) : SignedToken :=
  signToken j.secret .hs256
    { user_id := some userID
      email := some email
      exp := some (now + j.accessTokenDuration)
      iat := some now
      nbf := some now
      iss := some issuerConst }

/-- `JWTManager.GenerateRefreshToken`: HS256 token with `sub = userID`,
`exp = now + refreshTokenDuration`, `iat = nbf = now`,
`iss = "secure-task-api"`, and no `user_id`/`email` claims. -/
def JWTManager.GenerateRefreshToken (j : JWTManager) (now : Int)
    (userID : String) : SignedToken :=
  signToken j.secret .hs256
    { sub := some userID
      exp := some (now + j.refreshTokenDuration)
      iat := some now
      nbf := some now
      iss := some issuerConst }

/-- `JWTManager.ValidateToken`: parse with the HMAC keyfunc and return
the decoded `Claims` on success. No further checks are performed. -/
def JWTManager.ValidateToken (j : JWTManager) (now : Int)
    (t : SignedToken) : Except JWTError Claims :=
  match parseHMAC j.secret now t with
  | .error e => .error e
  | .ok p =>
      .ok { UserID := p.user_id.getD ""
            Email := p.email.getD ""
            Issuer := p.iss
            Subject := p.sub
            ExpiresAt := p.exp }

/-- `JWTManager.ValidateRefreshToken`: parse with the HMAC keyfunc
(wrapping a parse failure), then check that the issuer equals the
deployment constant, that `exp` is present and `now` is not after it,
and that the subject is non-empty; return the subject. -/
def JWTManager.ValidateRefreshToken (j : JWTManager) (now : Int)
    (t : SignedToken) : Except JWTError String :=
  match parseHMAC j.secret now t with
  | .error e => .error (.refreshParseFailed e)
  | .ok p =>
      if p.iss.getD "" ≠ issuerConst then .error .invalidIssuer
      else if p.exp.isNone ∨ (∃ e, p.exp = some e ∧ e < now) then
        .error .refreshExpired
      else if p.sub.getD "" = "" then .error .missingSubject
      else .ok (p.sub.getD "")

/-! ## Middleware (internal/middleware/middleware.go) -/

/-- Go `strings.SplitN(s, " ", 2)` on character lists: split at the
first space, if any. -/
def splitFirstSpace : List Char → Option (List Char × List Char)
  | [] => none
  | c :: cs =>
      if c = ' ' then some ([], cs)
      else match splitFirstSpace cs with
        | none => none
        | some (l, r) => some (c :: l, r)

/-- Go `strings.SplitN(header, " ", 2)`: one element when no space
occurs, otherwise the part before the first space and the rest. -/
def splitN2Space (s : String) : List String :=
  match splitFirstSpace s.data with
  | none => [s]
  | some (l, r) => [String.mk l, String.mk r]

/-- Drop leading whitespace characters from a character list. -/
def dropLeadingWS : List Char → List Char
  | [] => []
  | c :: cs => if c.isWhitespace then dropLeadingWS cs else c :: cs

/-- Go `strings.TrimSpace` (over the whitespace characters that occur
here): remove leading and trailing whitespace. -/
def trimSpace (s : String) : String :=
  String.mk (List.reverse (dropLeadingWS (List.reverse (dropLeadingWS s.data))))

/-- `bearerToken`: requires exactly two parts with the first equal to
`"Bearer"`, and returns the second part with surrounding whitespace
trimmed (`strings.TrimSpace`); `""` signals a malformed header. -/
def bearerToken (header : String) : String :=
  match splitN2Space header with
  | [p0, p1] => if p0 = "Bearer" then trimSpace p1 else ""
  | _ => ""

/-- JSON body written by the middleware helper `unauthorized`. -/
def unauthorizedBody (msg : String) : String :=
  "\x7b\"error\":\"unauthorized\",\"message\":\"" ++ msg ++ "\"\x7d"

/-- Outcome of the auth middleware on one request: either a rejection
written to the response (status and body, business logic never runs), or
the request proceeds with `user_id` and `email` stored in the context. -/
inductive GateResult
  | rejected (status : Nat) (body : String)
  | passed (userID email : String)
  deriving DecidableEq, Repr

/-- `AuthMiddleware`: `r.Header.Get` yields `""` for an absent
Authorization header; a malformed header (empty `bearerToken`) and a
failed `ValidateToken` each short-circuit with a 401; otherwise the
claims' `UserID` and `Email` are attached to the context and the request
reaches the next handler. `decode` models compact-JWS parsing of the
token string (`none` = the string is not a well-formed JWT, which
surfaces as a `ValidateToken` error). -/
def AuthMiddleware (j : JWTManager) (decode : String → Option SignedToken)
    (now : Int) (authHeader : String) : GateResult :=
  if authHeader = "" then
    .rejected 401 (unauthorizedBody "authorization header missing")
  else
    let token := bearerToken authHeader
    if token = "" then
      .rejected 401 (unauthorizedBody "invalid authorization header")
    else
      match decode token with
      | none => .rejected 401 (unauthorizedBody "invalid or expired token")
      | some t =>
          match j.ValidateToken now t with
          | .error _ =>
              .rejected 401 (unauthorizedBody "invalid or expired token")
          | .ok claims => .passed claims.UserID claims.Email

/-! ## Passwords (internal/auth/password.go), bcrypt modelled from the
documented contract of golang.org/x/crypto/bcrypt -/

/-- bcrypt library errors relevant here: `ErrMismatchedHashAndPassword`,
`ErrPasswordTooLong` (password over 72 bytes), and the hash-format
errors (`ErrHashTooShort` etc.) collapsed into one constructor. -/
inductive BcryptError
  | mismatchedHashAndPassword
  | passwordTooLong
  | hashMalformed
  deriving DecidableEq, Repr

/-- A well-formed bcrypt hash string: cost, salt, and the keyed digest
of (salt, password), idealized as collision-free by storing the password
itself. -/
structure BcryptHash where
  cost : Nat
  salt : String
  digest : String
  deriving DecidableEq, Repr

/-- A stored credential string: either a well-formed bcrypt hash or a
string that does not parse as one. -/
inductive StoredCredential
  | wellFormed (h : BcryptHash)
  | malformed (raw : String)
  deriving DecidableEq, Repr

/-- `bcrypt.GenerateFromPassword` at `DefaultCost`: errors on passwords
longer than 72 bytes, otherwise hashes under a salt (taken here as a
parameter in place of the library's random salt). -/
def GenerateFromPassword (salt password : String) :
    Except BcryptError BcryptHash :=
  if 72 < password.length then .error .passwordTooLong
  else .ok ⟨10, salt, password⟩

/-- `bcrypt.CompareHashAndPassword`: a malformed stored hash yields a
format error; otherwise the password is re-hashed under the stored salt
and compared, yielding `ErrMismatchedHashAndPassword` on mismatch. -/
def CompareHashAndPassword (hashed : StoredCredential) (password : String) :
    Except BcryptError Unit :=
  match hashed with
  | .malformed _ => .error .hashMalformed
  | .wellFormed h =>
      if h.digest = password then .ok ()
      else .error .mismatchedHashAndPassword

/-- Errors returned by the password helpers of internal/auth/password.go. -/
inductive PasswordError
  | couldNotHash (e : BcryptError)
  | doesNotMatch
  deriving DecidableEq, Repr

/-- `auth.HashPassword`: wraps a bcrypt error as
"could not hash password: %w", else returns the hash string. -/
def HashPassword (salt password : String) :
    Except PasswordError StoredCredential :=
  match GenerateFromPassword salt password with
  | .error e => .error (.couldNotHash e)
  | .ok h => .ok (.wellFormed h)

/-- `auth.CheckPassword`: any `bcrypt.CompareHashAndPassword` error is
replaced by the single error "password does not match". -/
def CheckPassword (password : String) (hashed : StoredCredential) :
    Except PasswordError Unit :=
  match CompareHashAndPassword hashed password with
  | .error _ => .error .doesNotMatch
  | .ok () => .ok ()

/-! ## Login handler (internal/handlers/auth.go) and response helpers
(pkg/utils/response.go) -/

/-- `http.StatusText` for the statuses used by the handlers. -/
def statusText : Nat → String
  | 200 => "OK"
  | 201 => "Created"
  | 400 => "Bad Request"
  | 401 => "Unauthorized"
  | 404 => "Not Found"
  | 500 => "Internal Server Error"
  | _ => ""

/-- `models.ErrorResponse` as serialized by `utils.JSONError`. -/
structure ErrorResponse where
  error : String
  message : String
  timestamp : Int
  statusCode : Nat
  deriving DecidableEq, Repr

/-- A stored user row as read by the login path. -/
structure User where
  id : String
  email : String
  name : String
  passwordHash : StoredCredential
  deriving DecidableEq, Repr

/-- `models.LoginRequest` after JSON decoding. -/
structure LoginRequest where
  email : String
  password : String
  deriving DecidableEq, Repr

/-- The HTTP response produced by `AuthHandler.Login`: an error response
via `utils.JSONError`, or `utils.JSONSuccess` with the user and the
fresh token pair. -/
inductive LoginResponse
  | err (status : Nat) (body : ErrorResponse)
  | ok (status : Nat) (user : User) (accessToken refreshToken : SignedToken)
  deriving DecidableEq, Repr

/-- `utils.JSONError`: error = `http.StatusText(status)`, the message,
`time.Now()`, and the status echoed in the body. -/
def JSONError (now : Int) (status : Nat) (message : String) : LoginResponse :=
  .err status ⟨statusText status, message, now, status⟩

/-- `AuthHandler.Login`: body parsing (`none` = undecodable JSON),
required-field check, user lookup by email (`Except` for a repository
error), password check, then token-pair generation. -/
def Login (j : JWTManager) (now : Int)
    (getByEmail : String → Except Unit (Option User))
    (req : Option LoginRequest) : LoginResponse :=
  match req with
  | none => JSONError now 400 "Invalid request body"
  | some r =>
      if r.email = "" ∨ r.password = "" then
        JSONError now 400 "Email and password are required"
      else
        match getByEmail r.email with
        | .error _ => JSONError now 500 "Failed to login"
        | .ok none => JSONError now 401 "Invalid email or password"
        | .ok (some user) =>
            match CheckPassword r.password user.passwordHash with
            | .error _ => JSONError now 401 "Invalid email or password"
            | .ok () =>
                .ok 200 user (j.GenerateAccessToken now user.id user.email)
                  (j.GenerateRefreshToken now user.id)

/-! ## Helper definitions and lemmas -/

/-- Whether an `Except` value is a success. -/
def isSuccess {ε α : Type} : Except ε α → Bool
  | .ok _ => true
  | .error _ => false

/-- A demonstration manager used by concrete witnesses: secret `"s"`,
access TTL 5 s, refresh TTL 100 s. -/
def jDemo : JWTManager := ⟨"s", 5, 100⟩

theorem parseHMAC_ok_iff (secret : String) (now : Int) (t : SignedToken)
    (p : Payload) :
    parseHMAC secret now t = .ok p ↔
      t.alg.isHMAC = true ∧ t.sig = Mac.mk secret t.alg t.payload ∧
      expValid now t.payload.exp = true ∧ nbfValid now t.payload.nbf = true ∧
      p = t.payload := by
  unfold parseHMAC
  by_cases h1 : t.alg.isHMAC = false
  · simp [h1]
  · rw [if_neg h1]
    rw [Bool.not_eq_false] at h1
    by_cases h2 : t.sig = Mac.mk secret t.alg t.payload
    · rw [if_neg (by simpa using h2)]
      by_cases h3 : expValid now t.payload.exp = false
      · simp [h3, h1, h2, Bool.not_eq_false]
      · rw [if_neg h3]
        rw [Bool.not_eq_false] at h3
        by_cases h4 : nbfValid now t.payload.nbf = false
        · simp [h4, h1, h2, h3, Bool.not_eq_false]
        · rw [if_neg h4]
          rw [Bool.not_eq_false] at h4
          simp [h1, h2, h3, h4, eq_comm]
    · rw [if_pos (by simpa using h2)]
      simp [h2]

theorem parseHMAC_self_signed (secret : String) (now : Int) (p : Payload) :
    parseHMAC secret now (signToken secret .hs256 p) =
      (if expValid now p.exp = false then .error .expired
       else if nbfValid now p.nbf = false then .error .notYetValid
       else .ok p) := by
  unfold parseHMAC signToken
  simp [Alg.isHMAC]

theorem parseHMAC_self_signed_isSuccess (secret : String) (now : Int)
    (p : Payload) :
    isSuccess (parseHMAC secret now (signToken secret .hs256 p)) =
      (expValid now p.exp && nbfValid now p.nbf) := by
  rw [parseHMAC_self_signed]
  by_cases h1 : expValid now p.exp = false
  · simp [h1, isSuccess]
  · rw [if_neg h1]
    rw [Bool.not_eq_false] at h1
    by_cases h2 : nbfValid now p.nbf = false
    · simp [h1, h2, isSuccess]
    · rw [if_neg h2]
      rw [Bool.not_eq_false] at h2
      simp [h1, h2, isSuccess]

theorem validateToken_isSuccess (j : JWTManager) (now : Int)
    (t : SignedToken) :
    isSuccess (j.ValidateToken now t) = isSuccess (parseHMAC j.secret now t) := by
  unfold JWTManager.ValidateToken
  cases hp : parseHMAC j.secret now t <;> simp [isSuccess]

theorem validateToken_ok_of_parse (j : JWTManager) (now : Int)
    (t : SignedToken) (p : Payload) (hp : parseHMAC j.secret now t = .ok p) :
    j.ValidateToken now t =
      .ok ⟨p.user_id.getD "", p.email.getD "", p.iss, p.sub, p.exp⟩ := by
  unfold JWTManager.ValidateToken
  rw [hp]

theorem validateToken_error_of_parse (j : JWTManager) (now : Int)
    (t : SignedToken) (e : JWTError)
    (hp : parseHMAC j.secret now t = .error e) :
    j.ValidateToken now t = .error e := by
  unfold JWTManager.ValidateToken
  rw [hp]

theorem validateRefresh_error_of_parse (j : JWTManager) (now : Int)
    (t : SignedToken) (e : JWTError)
    (hp : parseHMAC j.secret now t = .error e) :
    j.ValidateRefreshToken now t = .error (.refreshParseFailed e) := by
  unfold JWTManager.ValidateRefreshToken
  rw [hp]

theorem parseHMAC_wrong_secret (s1 s2 : String) (a : Alg) (p : Payload)
    (now : Int) (ha : a.isHMAC = true) (hne : s1 ≠ s2) :
    parseHMAC s2 now (signToken s1 a p) = .error .badSignature := by
  unfold parseHMAC signToken
  rw [if_neg (by simp [ha])]
  rw [if_pos]
  simp only [ne_eq, Mac.mk.injEq, not_and]
  exact fun h => absurd h hne

theorem authMiddleware_missing (j : JWTManager)
    (dec : String → Option SignedToken) (now : Int) :
    AuthMiddleware j dec now "" =
      .rejected 401 (unauthorizedBody "authorization header missing") := rfl

theorem authMiddleware_malformed (j : JWTManager)
    (dec : String → Option SignedToken) (now : Int) (h : String)
    (hh : h ≠ "") (hb : bearerToken h = "") :
    AuthMiddleware j dec now h =
      .rejected 401 (unauthorizedBody "invalid authorization header") := by
  unfold AuthMiddleware
  rw [if_neg hh]
  show (if bearerToken h = "" then _ else _) = _
  rw [if_pos hb]

theorem authMiddleware_undecodable (j : JWTManager)
    (dec : String → Option SignedToken) (now : Int) (h : String)
    (hh : h ≠ "") (hb : bearerToken h ≠ "") (hd : dec (bearerToken h) = none) :
    AuthMiddleware j dec now h =
      .rejected 401 (unauthorizedBody "invalid or expired token") := by
  unfold AuthMiddleware
  rw [if_neg hh]
  show (if bearerToken h = "" then _ else _) = _
  rw [if_neg hb, hd]

theorem authMiddleware_invalid (j : JWTManager)
    (dec : String → Option SignedToken) (now : Int) (h : String)
    (t : SignedToken) (e : JWTError) (hh : h ≠ "")
    (hb : bearerToken h ≠ "") (hd : dec (bearerToken h) = some t)
    (hv : j.ValidateToken now t = .error e) :
    AuthMiddleware j dec now h =
      .rejected 401 (unauthorizedBody "invalid or expired token") := by
  unfold AuthMiddleware
  rw [if_neg hh]
  show (if bearerToken h = "" then _ else _) = _
  rw [if_neg hb, hd]
  dsimp only
  rw [hv]

theorem authMiddleware_ok (j : JWTManager)
    (dec : String → Option SignedToken) (now : Int) (h : String)
    (t : SignedToken) (c : Claims) (hh : h ≠ "")
    (hb : bearerToken h ≠ "") (hd : dec (bearerToken h) = some t)
    (hv : j.ValidateToken now t = .ok c) :
    AuthMiddleware j dec now h = .passed c.UserID c.Email := by
  unfold AuthMiddleware
  rw [if_neg hh]
  show (if bearerToken h = "" then _ else _) = _
  rw [if_neg hb, hd]
  dsimp only
  rw [hv]

/-! ## Claim theorems -/

/-- C1 counterexample: a token correctly HMAC-signed with the
validator's own secret, with valid timestamps but issuer `"evil"`, is
accepted by `ValidateToken` — contradicting the claim that access-token
validation succeeds only when the token's issuer equals
`"secure-task-api"`. -/
theorem C1_counterexample :
    jDemo.ValidateToken 1
        (signToken "s" .hs256
          { user_id := some "u", email := some "e", iss := some "evil",
            exp := some 10, nbf := some 0, iat := some 0 }) =
      .ok ⟨"u", "e", some "evil", none, some 10⟩ ∧
    some "evil" ≠ some issuerConst := by
  exact ⟨rfl, by decide⟩

/-- C1 amended: `ValidateToken` never inspects the issuer claim — for
any two issuer values, tokens that agree on everything else and are each
correctly signed with the validator's secret have the same validation
outcome. Only `ValidateRefreshToken` checks the issuer. -/
theorem C1_issuer_not_checked (j : JWTManager) (now : Int) (p : Payload)
    (i1 i2 : Option String) :
    isSuccess (j.ValidateToken now
        (signToken j.secret .hs256 { p with iss := i1 })) =
      isSuccess (j.ValidateToken now
        (signToken j.secret .hs256 { p with iss := i2 })) := by
  rw [validateToken_isSuccess, validateToken_isSuccess,
    parseHMAC_self_signed_isSuccess, parseHMAC_self_signed_isSuccess]

/-- C6 counterexample: with TTL 5 > 0, the access token issued at 0 is
already rejected (as expired) at now = 5 = issued_at + TTL, although the
claim asserts it validates at every now with
issued_at ≤ now ≤ issued_at + TTL. -/
theorem C6_counterexample :
    jDemo.ValidateToken 5 (jDemo.GenerateAccessToken 0 "u" "e") =
      .error .expired ∧
    (0 : Int) < jDemo.accessTokenDuration ∧
    (0 : Int) ≤ 5 ∧ (5 : Int) ≤ 0 + jDemo.accessTokenDuration := by
  exact ⟨rfl, by decide, by decide, by decide⟩

/-- C6 amended: an access token issued at `iat` with TTL
`accessTokenDuration` validates exactly when
`iat ≤ now < iat + accessTokenDuration` — the expiry bound is strict
(golang-jwt validates `exp` with `now.Before(exp)`), so validation
already fails at `now = iat + TTL`, and a fortiori at `iat + TTL + 1`. -/
theorem C6_token_window (j : JWTManager) (iat now : Int) (uid em : String) :
    isSuccess (j.ValidateToken now (j.GenerateAccessToken iat uid em)) = true ↔
      iat ≤ now ∧ now < iat + j.accessTokenDuration := by
  rw [validateToken_isSuccess]
  show isSuccess (parseHMAC j.secret now (signToken j.secret .hs256 _)) = true ↔ _
  rw [parseHMAC_self_signed_isSuccess]
  simp only [expValid, nbfValid, Bool.and_eq_true, decide_eq_true_eq]
  exact and_comm

/-- Witness for C6: the demo token issued at 0 with TTL 5 validates at
now = 3. -/
theorem C6_token_window_witness :
    isSuccess (jDemo.ValidateToken 3 (jDemo.GenerateAccessToken 0 "u" "e")) =
      true :=
  (C6_token_window jDemo 0 3 "u" "e").mpr (by decide)

/-- C7: a token generated under secret `s1` is rejected by a validator
configured with a different secret `s2`, for both generators and both
validators; the failure is the signature check. -/
theorem C7_cross_secret (s1 s2 : String) (hne : s1 ≠ s2)
    (d1 r1 d2 r2 iatA iatR now : Int) (uid em : String) :
    (⟨s2, d2, r2⟩ : JWTManager).ValidateToken now
        ((⟨s1, d1, r1⟩ : JWTManager).GenerateAccessToken iatA uid em) =
      .error .badSignature ∧
    (⟨s2, d2, r2⟩ : JWTManager).ValidateToken now
        ((⟨s1, d1, r1⟩ : JWTManager).GenerateRefreshToken iatR uid) =
      .error .badSignature ∧
    (⟨s2, d2, r2⟩ : JWTManager).ValidateRefreshToken now
        ((⟨s1, d1, r1⟩ : JWTManager).GenerateAccessToken iatA uid em) =
      .error (.refreshParseFailed .badSignature) ∧
    (⟨s2, d2, r2⟩ : JWTManager).ValidateRefreshToken now
        ((⟨s1, d1, r1⟩ : JWTManager).GenerateRefreshToken iatR uid) =
      .error (.refreshParseFailed .badSignature) := by
  refine ⟨?_, ?_, ?_, ?_⟩
  · exact validateToken_error_of_parse _ _ _ _
      (parseHMAC_wrong_secret s1 s2 .hs256 _ now rfl hne)
  · exact validateToken_error_of_parse _ _ _ _
      (parseHMAC_wrong_secret s1 s2 .hs256 _ now rfl hne)
  · exact validateRefresh_error_of_parse _ _ _ _
      (parseHMAC_wrong_secret s1 s2 .hs256 _ now rfl hne)
  · exact validateRefresh_error_of_parse _ _ _ _
      (parseHMAC_wrong_secret s1 s2 .hs256 _ now rfl hne)

/-- Witness for C7 at secrets "a" ≠ "b". -/
theorem C7_cross_secret_witness :
    (⟨"b", 5, 100⟩ : JWTManager).ValidateToken 1
        ((⟨"a", 5, 100⟩ : JWTManager).GenerateAccessToken 0 "u" "e") =
      .error .badSignature :=
  (C7_cross_secret "a" "b" (by decide) 5 100 5 100 0 0 1 "u" "e").1

/-- C10: an unexpired refresh token is accepted by `ValidateToken` (which
checks neither the issuer nor the presence of the custom claims), yields
`Claims` with empty `UserID` and `Email`, and passes the auth middleware
as if it were an access token. -/
theorem C10_refresh_passes_gate (j : JWTManager) (iat now : Int)
    (uid : String) (hlo : iat ≤ now)
    (hhi : now < iat + j.refreshTokenDuration) :
    j.ValidateToken now (j.GenerateRefreshToken iat uid) =
      .ok ⟨"", "", some issuerConst, some uid,
        some (iat + j.refreshTokenDuration)⟩ ∧
    AuthMiddleware j
        (fun s => if s = "tok" then some (j.GenerateRefreshToken iat uid)
          else none)
        now "Bearer tok" = .passed "" "" := by
  have hexp : expValid now (some (iat + j.refreshTokenDuration)) = true := by
    simp only [expValid, decide_eq_true_eq]
    omega
  have hnbf : nbfValid now (some iat) = true := by
    simp only [nbfValid, decide_eq_true_eq]
    omega
  have hp : parseHMAC j.secret now (j.GenerateRefreshToken iat uid) =
      .ok { sub := some uid, exp := some (iat + j.refreshTokenDuration),
            iat := some iat, nbf := some iat, iss := some issuerConst } := by
    show parseHMAC j.secret now (signToken j.secret .hs256 _) = _
    rw [parseHMAC_self_signed]
    simp [hexp, hnbf]
  have hv : j.ValidateToken now (j.GenerateRefreshToken iat uid) =
      .ok ⟨"", "", some issuerConst, some uid,
        some (iat + j.refreshTokenDuration)⟩ :=
    validateToken_ok_of_parse j now _ _ hp
  refine ⟨hv, ?_⟩
  have hbt : bearerToken "Bearer tok" = "tok" := by decide
  exact authMiddleware_ok j _ now "Bearer tok" _ _ (by decide)
    (by rw [hbt]; decide) (by rw [hbt]; simp) hv

/-- Witness for C10 with the demo manager, issued at 0, checked at 1. -/
theorem C10_refresh_passes_gate_witness :
    jDemo.ValidateToken 1 (jDemo.GenerateRefreshToken 0 "uid") =
      .ok ⟨"", "", some issuerConst, some "uid", some 100⟩ ∧
    AuthMiddleware jDemo
        (fun s => if s = "tok" then some (jDemo.GenerateRefreshToken 0 "uid")
          else none)
        1 "Bearer tok" = .passed "" "" := by
  exact C10_refresh_passes_gate jDemo 0 1 "uid" (by decide) (by decide)

/-- C2: verifying a plaintext against the credential obtained by hashing
it succeeds, and verifying any other plaintext against that credential
fails (bcrypt modelled as a collision-free keyed digest per its
documented contract). -/
theorem C2_password_roundtrip :
    (∀ salt p h, HashPassword salt p = .ok h → CheckPassword p h = .ok ()) ∧
    (∀ salt p1 p2 h, p1 ≠ p2 → HashPassword salt p2 = .ok h →
      CheckPassword p1 h = .error .doesNotMatch) := by
  constructor
  · intro salt p h hh
    unfold HashPassword GenerateFromPassword at hh
    by_cases hl : 72 < p.length
    · simp [hl] at hh
    · simp only [hl, if_false, ite_false] at hh
      cases hh
      unfold CheckPassword CompareHashAndPassword
      simp
  · intro salt p1 p2 h hne hh
    unfold HashPassword GenerateFromPassword at hh
    by_cases hl : 72 < p2.length
    · simp [hl] at hh
    · simp only [hl, if_false, ite_false] at hh
      cases hh
      unfold CheckPassword CompareHashAndPassword
      dsimp only
      rw [if_neg (fun hcon => hne hcon.symm)]

/-- Witness for C2 at plaintexts "a" and "b" with salt "s". -/
theorem C2_password_roundtrip_witness :
    CheckPassword "a" (.wellFormed ⟨10, "s", "a"⟩) = .ok () ∧
    CheckPassword "b" (.wellFormed ⟨10, "s", "a"⟩) =
      .error .doesNotMatch := by
  constructor
  · exact C2_password_roundtrip.1 "s" "a" _ rfl
  · exact C2_password_roundtrip.2 "s" "b" "a" _ (by decide) rfl

/-- C5 counterexample: a malformed stored credential makes
`CheckPassword` fail with exactly the same error value as an incorrect
password — while the underlying bcrypt comparison does report a distinct
format error, `CheckPassword` discards it, so no distinct
VerificationFailure is observable by the caller. -/
theorem C5_counterexample :
    CheckPassword "pw" (.malformed "xx") = .error .doesNotMatch ∧
    CheckPassword "wrong" (.wellFormed ⟨10, "s", "right"⟩) =
      .error .doesNotMatch ∧
    CompareHashAndPassword (.malformed "xx") "pw" = .error .hashMalformed := by
  exact ⟨rfl, rfl, rfl⟩

/-- C5 amended: every failure of `CheckPassword` — wrong password or
malformed/corrupt stored credential alike — returns the single error
"password does not match"; the two causes are not distinguishable by the
caller. -/
theorem C5_all_failures_collapse (password : String)
    (cred : StoredCredential) (e : PasswordError)
    (h : CheckPassword password cred = .error e) :
    e = .doesNotMatch := by
  cases cred with
  | malformed raw =>
      simp only [CheckPassword, CompareHashAndPassword, Except.error.injEq] at h
      exact h.symm
  | wellFormed bh =>
      by_cases hd : bh.digest = password
      · simp [CheckPassword, CompareHashAndPassword, hd] at h
      · simp only [CheckPassword, CompareHashAndPassword, if_neg hd,
          Except.error.injEq] at h
        exact h.symm

/-- Witness for C5 amended: the malformed-credential failure carries the
same error value as a password mismatch. -/
theorem C5_all_failures_collapse_witness :
    CheckPassword "pw" (StoredCredential.malformed "xx") =
      .error .doesNotMatch ∧
    PasswordError.doesNotMatch = .doesNotMatch :=
  ⟨rfl, C5_all_failures_collapse "pw" (.malformed "xx") .doesNotMatch rfl⟩

/-- C9: the login failure response for an unknown email and for a known
email with a wrong password are identical — same 401 status, same error
field, same message "Invalid email or password" (and same timestamp when
produced at the same instant). -/
theorem C9_login_uniform_failure (j : JWTManager) (now : Int)
    (lookupAbsent lookupPresent : String → Except Unit (Option User))
    (req : LoginRequest) (user : User)
    (he : req.email ≠ "") (hpw : req.password ≠ "")
    (ha : lookupAbsent req.email = .ok none)
    (hb : lookupPresent req.email = .ok (some user))
    (hm : CheckPassword req.password user.passwordHash =
      .error .doesNotMatch) :
    Login j now lookupAbsent (some req) = Login j now lookupPresent (some req) ∧
    Login j now lookupAbsent (some req) =
      JSONError now 401 "Invalid email or password" := by
  have h1 : Login j now lookupAbsent (some req) =
      JSONError now 401 "Invalid email or password" := by
    unfold Login
    dsimp only
    rw [if_neg (by simp [he, hpw])]
    rw [ha]
  have h2 : Login j now lookupPresent (some req) =
      JSONError now 401 "Invalid email or password" := by
    unfold Login
    dsimp only
    rw [if_neg (by simp [he, hpw])]
    rw [hb]
    dsimp only
    rw [hm]
  exact ⟨h1.trans h2.symm, h1⟩

/-- Witness for C9: concrete absent-user and wrong-password lookups give
the identical response. -/
theorem C9_login_uniform_failure_witness :
    Login jDemo 0 (fun _ => .ok none) (some ⟨"a@b.c", "pw"⟩) =
      Login jDemo 0
        (fun _ => .ok (some ⟨"id1", "a@b.c", "n",
          .wellFormed ⟨10, "s", "right"⟩⟩))
        (some ⟨"a@b.c", "pw"⟩) ∧
    Login jDemo 0 (fun _ => .ok none) (some ⟨"a@b.c", "pw"⟩) =
      JSONError 0 401 "Invalid email or password" := by
  exact C9_login_uniform_failure jDemo 0 _ _ ⟨"a@b.c", "pw"⟩
    ⟨"id1", "a@b.c", "n", .wellFormed ⟨10, "s", "right"⟩⟩
    (by decide) (by decide) rfl rfl rfl

/-- Payload of the C4 example token: correct issuer and non-empty
subject, expiry in the future, but `nbf = 50`. -/
def pC4 : Payload :=
  { sub := some "u", iss := some issuerConst, exp := some 100,
    nbf := some 50, iat := some 0 }

/-- C4 counterexample: at now = 10 the token signed over `pC4` with the
validator's secret satisfies all four conditions of the claim — HMAC
algorithm with a verifying signature, issuer equal to the deployment
constant, expiry in the future, non-empty subject — yet
`ValidateRefreshToken` rejects it, because the parse step also enforces
the not-before claim (nbf = 50 > 10). -/
theorem C4_counterexample :
    ((signToken "s" .hs256 pC4).alg.isHMAC = true ∧
     (signToken "s" .hs256 pC4).sig =
       Mac.mk "s" (signToken "s" .hs256 pC4).alg
         (signToken "s" .hs256 pC4).payload ∧
     pC4.iss.getD "" = issuerConst ∧
     pC4.exp = some 100 ∧ (10 : Int) < 100 ∧
     pC4.sub.getD "" ≠ "") ∧
    jDemo.ValidateRefreshToken 10 (signToken "s" .hs256 pC4) =
      .error (.refreshParseFailed .notYetValid) := by
  exact ⟨⟨rfl, rfl, rfl, rfl, by decide, by decide⟩, rfl⟩

/-- C4 amended: `ValidateRefreshToken` succeeds exactly when the
algorithm is HMAC, the signature verifies against the configured secret,
`exp` is present with `now < exp`, the not-before claim (enforced by the
parse step, in addition to the claim's four conditions) is absent or not
in the future, the issuer equals the deployment constant, and the
subject is non-empty; the returned identity is the subject. On any
failure an error is returned (and the function never issues tokens). -/
theorem C4_refresh_validation (j : JWTManager) (now : Int)
    (t : SignedToken) (s : String) :
    j.ValidateRefreshToken now t = .ok s ↔
      t.alg.isHMAC = true ∧ t.sig = Mac.mk j.secret t.alg t.payload ∧
      (∃ e, t.payload.exp = some e ∧ now < e) ∧
      nbfValid now t.payload.nbf = true ∧
      t.payload.iss.getD "" = issuerConst ∧
      t.payload.sub.getD "" ≠ "" ∧ s = t.payload.sub.getD "" := by
  unfold JWTManager.ValidateRefreshToken
  cases hp : parseHMAC j.secret now t with
  | error e =>
      dsimp only
      constructor
      · intro h
        exact Except.noConfusion h
      · rintro ⟨h1, h2, ⟨e', he', hlt⟩, h4, -, -, -⟩
        have hok : parseHMAC j.secret now t = .ok t.payload :=
          (parseHMAC_ok_iff j.secret now t t.payload).mpr
            ⟨h1, h2, by simp [expValid, he', hlt], h4, rfl⟩
        rw [hp] at hok
        exact Except.noConfusion hok
  | ok p =>
      obtain ⟨h1, h2, h3, h4, hpp⟩ := (parseHMAC_ok_iff j.secret now t p).mp hp
      subst hpp
      dsimp only
      by_cases hiss : t.payload.iss.getD "" ≠ issuerConst
      · rw [if_pos hiss]
        constructor
        · intro h
          exact Except.noConfusion h
        · rintro ⟨-, -, -, -, h5, -, -⟩
          exact absurd h5 hiss
      · rw [if_neg hiss]
        rw [ne_eq, not_not] at hiss
        by_cases hexp : (t.payload.exp.isNone = true) ∨
            (∃ e, t.payload.exp = some e ∧ e < now)
        · rw [if_pos hexp]
          constructor
          · intro h
            exact Except.noConfusion h
          · rintro ⟨-, -, ⟨e', he', hlt⟩, -, -, -, -⟩
            rcases hexp with hnone | ⟨e2, he2, hlt2⟩
            · rw [he'] at hnone
              exact Bool.noConfusion hnone
            · rw [he'] at he2
              cases he2
              omega
        · rw [if_neg hexp]
          by_cases hsub : t.payload.sub.getD "" = ""
          · rw [if_pos hsub]
            constructor
            · intro h
              exact Except.noConfusion h
            · rintro ⟨-, -, -, -, -, h6, -⟩
              exact absurd hsub h6
          · rw [if_neg hsub]
            constructor
            · intro h
              have hs : t.payload.sub.getD "" = s := by
                simpa using h
              refine ⟨h1, h2, ?_, h4, hiss, hsub, hs.symm⟩
              cases hoe : t.payload.exp with
              | none =>
                  exact absurd (Or.inl (by rw [hoe]; rfl)) hexp
              | some e' =>
                  refine ⟨e', rfl, ?_⟩
                  have h3' := h3
                  rw [hoe] at h3'
                  simpa [expValid] using h3'
            · rintro ⟨-, -, -, -, -, -, rfl⟩
              rfl

/-- Witness for C4 amended: the `pC4` token validates at now = 60 (past
its not-before time) and yields its subject. -/
theorem C4_refresh_validation_witness :
    jDemo.ValidateRefreshToken 60 (signToken "s" .hs256 pC4) = .ok "u" :=
  (C4_refresh_validation jDemo 60 _ "u").mpr
    ⟨rfl, rfl, ⟨100, rfl, by decide⟩, rfl, rfl, by decide, rfl⟩

/-- An expired access token for the middleware examples: issued at -10
with TTL 5, so expired at any now ≥ -5. -/
def tokExpC3 : SignedToken := jDemo.GenerateAccessToken (-10) "u" "e"

/-- A token signed with secret "x" ≠ jDemo's secret "s". -/
def tokBadC3 : SignedToken :=
  signToken "x" .hs256
    { user_id := some "u", email := some "e", iss := some issuerConst,
      exp := some 10, nbf := some 0, iat := some 0 }

/-- Decode environment for the middleware examples: "exp" parses to the
expired token, "bad" to the wrong-secret token, all else is malformed. -/
def decC3 : String → Option SignedToken :=
  fun s =>
    if s = "exp" then some tokExpC3
    else if s = "bad" then some tokBadC3
    else none

/-- C3 counterexample: the four rejection causes all return 401, but the
response bodies are not identical — a missing header and a header
without the Bearer scheme produce different messages (only the expired
and wrong-signature causes coincide), contradicting the claim that all
four yield the identical body. -/
theorem C3_counterexample :
    AuthMiddleware jDemo decC3 0 "" =
      .rejected 401 (unauthorizedBody "authorization header missing") ∧
    AuthMiddleware jDemo decC3 0 "Token abc" =
      .rejected 401 (unauthorizedBody "invalid authorization header") ∧
    AuthMiddleware jDemo decC3 0 "Bearer exp" =
      .rejected 401 (unauthorizedBody "invalid or expired token") ∧
    AuthMiddleware jDemo decC3 0 "Bearer bad" =
      .rejected 401 (unauthorizedBody "invalid or expired token") ∧
    unauthorizedBody "authorization header missing" ≠
      unauthorizedBody "invalid authorization header" := by
  exact ⟨rfl, rfl, rfl, rfl, by decide⟩

/-- C3 amended: every rejection by the gate carries status 401 and one
of three fixed bodies sharing the error field "unauthorized" — the
message distinguishes a missing header, a malformed header, and a
token-validation failure; within the last group, expired and
wrong-signature tokens yield the identical response. -/
theorem C3_gate_rejections :
    (∀ (j : JWTManager) (dec : String → Option SignedToken) (now : Int)
        (h : String) (st : Nat) (body : String),
        AuthMiddleware j dec now h = .rejected st body →
        st = 401 ∧
          (body = unauthorizedBody "authorization header missing" ∨
           body = unauthorizedBody "invalid authorization header" ∨
           body = unauthorizedBody "invalid or expired token")) ∧
    (∀ (j : JWTManager) (dec : String → Option SignedToken) (now : Int)
        (h : String) (t : SignedToken) (e : JWTError), h ≠ "" →
        bearerToken h ≠ "" → dec (bearerToken h) = some t →
        j.ValidateToken now t = .error e →
        AuthMiddleware j dec now h =
          .rejected 401 (unauthorizedBody "invalid or expired token")) := by
  constructor
  · intro j dec now h st body hrej
    unfold AuthMiddleware at hrej
    by_cases hh : h = ""
    · rw [if_pos hh] at hrej
      cases hrej
      exact ⟨rfl, Or.inl rfl⟩
    · rw [if_neg hh] at hrej
      dsimp only at hrej
      by_cases hb : bearerToken h = ""
      · rw [if_pos hb] at hrej
        cases hrej
        exact ⟨rfl, Or.inr (Or.inl rfl)⟩
      · rw [if_neg hb] at hrej
        cases hd : dec (bearerToken h) with
        | none =>
            rw [hd] at hrej
            dsimp only at hrej
            cases hrej
            exact ⟨rfl, Or.inr (Or.inr rfl)⟩
        | some t =>
            rw [hd] at hrej
            dsimp only at hrej
            cases hv : j.ValidateToken now t with
            | error e =>
                rw [hv] at hrej
                dsimp only at hrej
                cases hrej
                exact ⟨rfl, Or.inr (Or.inr rfl)⟩
            | ok c =>
                rw [hv] at hrej
                dsimp only at hrej
                exact GateResult.noConfusion hrej
  · intro j dec now h t e hh hb hd hv
    exact authMiddleware_invalid j dec now h t e hh hb hd hv

/-- Witness for C3 amended, at a missing header and the wrong-secret
token. -/
theorem C3_gate_rejections_witness :
    (401 = 401 ∧
      (unauthorizedBody "authorization header missing" =
          unauthorizedBody "authorization header missing" ∨
       unauthorizedBody "authorization header missing" =
          unauthorizedBody "invalid authorization header" ∨
       unauthorizedBody "authorization header missing" =
          unauthorizedBody "invalid or expired token")) ∧
    AuthMiddleware jDemo decC3 0 "Bearer bad" =
      .rejected 401 (unauthorizedBody "invalid or expired token") := by
  constructor
  · exact C3_gate_rejections.1 jDemo decC3 0 "" 401
      (unauthorizedBody "authorization header missing") rfl
  · exact C3_gate_rejections.2 jDemo decC3 0 "Bearer bad" tokBadC3
      .badSignature (by decide) (by decide) rfl rfl

/-- Decode environment for the C8 counterexample: only "x" parses, to a
valid access token of the demo manager. -/
def decC8 : String → Option SignedToken :=
  fun s => if s = "x" then some (jDemo.GenerateAccessToken 0 "u" "e")
    else none

/-- C8 counterexample: a header with two spaces after "Bearer" is not of
the exact form `Bearer <token>` with a single space separator, yet the
gate accepts it and the request reaches business logic, because the
remainder is whitespace-trimmed before use — contradicting the claim
that extra whitespace is rejected with a 401. -/
theorem C8_counterexample :
    AuthMiddleware jDemo decC8 1 "Bearer  x" = .passed "u" "e" ∧
    "Bearer  x" ≠ "Bearer x" := by
  exact ⟨rfl, by decide⟩

/-- C8 amended: an absent header is rejected with 401, a header whose
`bearerToken` is empty (no space, first part not exactly "Bearer", or a
whitespace-only remainder) is rejected with 401 and never reaches
business logic; any header the scheme check lets through splits at the
first space into exactly "Bearer" and a remainder whose whitespace
trimming is the non-empty token — so extra whitespace around the token
is tolerated rather than rejected. -/
theorem C8_bearer_scheme :
    (∀ (j : JWTManager) (dec : String → Option SignedToken) (now : Int),
        AuthMiddleware j dec now "" =
          .rejected 401 (unauthorizedBody "authorization header missing")) ∧
    (∀ (j : JWTManager) (dec : String → Option SignedToken) (now : Int)
        (h : String), h ≠ "" → bearerToken h = "" →
        AuthMiddleware j dec now h =
          .rejected 401 (unauthorizedBody "invalid authorization header")) ∧
    (∀ h : String, bearerToken h ≠ "" →
        ∃ rest : String, splitN2Space h = ["Bearer", rest] ∧
          bearerToken h = trimSpace rest ∧ trimSpace rest ≠ "") := by
  refine ⟨?_, ?_, ?_⟩
  · intro j dec now
    exact authMiddleware_missing j dec now
  · intro j dec now h hh hb
    exact authMiddleware_malformed j dec now h hh hb
  · intro h hb
    unfold bearerToken at hb ⊢
    cases hs : splitN2Space h with
    | nil =>
        rw [hs] at hb
        exact absurd rfl hb
    | cons p0 rest =>
        cases rest with
        | nil =>
            rw [hs] at hb
            exact absurd rfl hb
        | cons p1 rest2 =>
            cases rest2 with
            | nil =>
                rw [hs] at hb
                by_cases hp0 : p0 = "Bearer"
                · refine ⟨p1, by rw [hp0], ?_, ?_⟩
                  · show (if p0 = "Bearer" then trimSpace p1 else "") =
                      trimSpace p1
                    rw [if_pos hp0]
                  · have hb' : (if p0 = "Bearer" then trimSpace p1 else "") ≠
                        "" := hb
                    rw [if_pos hp0] at hb'
                    exact hb'
                · have hb' : (if p0 = "Bearer" then trimSpace p1 else "") ≠
                      "" := hb
                  rw [if_neg hp0] at hb'
                  exact absurd rfl hb'
            | cons p2 rest3 =>
                rw [hs] at hb
                exact absurd rfl hb

/-- Witness for C8 amended: a wrong scheme is rejected; a double-space
Bearer header passes the scheme check with the trimmed token. -/
theorem C8_bearer_scheme_witness :
    AuthMiddleware jDemo decC8 1 "Token x" =
      .rejected 401 (unauthorizedBody "invalid authorization header") ∧
    (∃ rest : String, splitN2Space "Bearer  x" = ["Bearer", rest] ∧
      bearerToken "Bearer  x" = trimSpace rest ∧ trimSpace rest ≠ "") := by
  constructor
  · exact C8_bearer_scheme.2.1 jDemo decC8 1 "Token x" (by decide) (by decide)
  · exact C8_bearer_scheme.2.2 "Bearer  x" (by decide)

end SecureTaskApi
